import Mathlib

/-!
Shallow embedding of the response-cache component of the CultureBot service:
`app/utils.py` (backend selection, `_lru_cache_get`, `get_cached_response`,
`cache_response`) and the cache-consulting part of the `/ask` handler in
`app/main.py` (`ask_question`).

Modelling conventions:
* Python `Optional[str]` is `Option String`; `None` is `none`.
* The `functools.lru_cache` wrapper around `_lru_cache_get` is a
  most-recent-first association list from the call argument to the wrapped
  function's return value, bounded by `maxsize`.
* The Redis client is a store mapping full key strings to raw byte values
  with an absolute expiry instant, driven by an abstract clock (`now : Nat`).
  Whether a given client operation raises (connection error, timeout) is an
  explicit `fail : Bool` input to the operation.
* Raising and catching exceptions is modelled by total functions: a caught
  exception corresponds to the handler's return value, and an uncaught one
  to an `Except.error` result where relevant (module start-up).
-/

namespace CultureBot

/-! ### Raw byte values stored in the external store -/

/-- A raw byte string as stored in / returned by the external store client.
`utf8 s` is the UTF-8 encoding of the string `s` (the only shape
`cache_response` ever writes); `garbage` is a non-empty byte string that is
not valid UTF-8, so `bytes.decode("utf-8")` raises on it. -/
inductive RBytes where
  | utf8 (s : String)
  | garbage
deriving DecidableEq, Repr

/-- Python truthiness of a `bytes` value: empty byte strings are falsy.
`utf8 s` is empty exactly when `s` is empty; `garbage` is non-empty. -/
def RBytes.isTruthy : RBytes → Bool
  | .utf8 s => !(s == "")
  | .garbage => true

/-- `cached.decode("utf-8")`: succeeds with the decoded string on valid
UTF-8, raises (`Except.error`) on undecodable bytes. -/
def RBytes.decodeUtf8 : RBytes → Except Unit String
  | .utf8 s => .ok s
  | .garbage => .error ()

/-! ### In-process backend: the `functools.lru_cache` wrapper -/

/-- `maxsize=100` from the `@lru_cache(maxsize=100)` decorator on
`_lru_cache_get` (`app/utils.py`). -/
def lruMaxsize : Nat := 100

/-- The internal state of the `lru_cache` wrapper object: entries from the
call argument to the cached return value, most recently used first. -/
abbrev LruState : Type := List (String × Option String)

/-- The undecorated body of `_lru_cache_get` (`app/utils.py`): it always
returns `None`; the comment in the source says the decorator is expected to
do the caching. This is also what `_lru_cache_get.__wrapped__` calls. -/
def lruWrapped (_question : String) : Option String := none

/-- A call `_lru_cache_get(question)` through the `lru_cache` wrapper.
On a hit it returns the cached value and moves the entry to most-recent
position; on a miss it calls the wrapped body, records its result as most
recent, and evicts the least-recently-used entry if the bound is exceeded. -/
def lruCall (s : LruState) (question : String) : Option String × LruState :=
  match s.lookup question with
  | some v => (v, (question, v) :: s.eraseP (fun p => p.1 == question))
  | none => (lruWrapped question, ((question, lruWrapped question) :: s).take lruMaxsize)

/-- Whether the `functools.lru_cache` wrapper object has a `cache_dict`
attribute. It does not: the wrapper exposes only `cache_info`,
`cache_clear`, `cache_parameters` and `__wrapped__`, so
`hasattr(_lru_cache_get, "cache_dict")` is `False`. -/
def lruHasCacheDict : Bool := false

/-- The in-process branch of `cache_response(question, answer)`
(`app/utils.py`):
`_lru_cache_get.cache_clear()` empties the wrapper's store; the direct call
`_lru_cache_get.__wrapped__(question)` does not touch the store; reading
`cache_parameters()["maxsize"]` is discarded; and the guarded write to
`cache_dict` is skipped because the attribute does not exist. -/
def cacheResponseLocal (_s : LruState) (question : String) (answer : String) : LruState :=
  let cleared : LruState := []
  let _ := lruWrapped question
  let _ := lruMaxsize
  if lruHasCacheDict then (question, some answer) :: cleared else cleared

/-! ### External backend: the Redis client -/

/-- The key written and read by the external backend for a question:
the fixed namespace string followed by the question text verbatim
(the f-string `f"culturebot:qa:{question}"`). -/
def mkKey (question : String) : String := "culturebot:qa:" ++ question

/-- The TTL passed to `setex` in `cache_response`: 24 hours in seconds. -/
def redisTTL : Nat := 86400

/-- The external store's state: entries of key, stored bytes, and absolute
expiry instant. A lookup takes the most recent write for a key (new writes
are consed in front). -/
abbrev RedisState : Type := List (String × RBytes × Nat)

/-- `redis_client.get(k)` at abstract time `now`: the stored value if the
key is present and not yet expired, otherwise `None`. An entry written at
`t` with TTL `T` expires at instant `t + T` and is gone from then on. -/
def redisRawGet (st : RedisState) (now : Nat) (k : String) : Option RBytes :=
  match st.lookup k with
  | some (v, exp) => if now < exp then some v else none
  | none => none

/-- `redis_client.setex(k, ttl, v)` at abstract time `now`: stores `v`
under `k` with expiry instant `now + ttl`. -/
def redisSetex (st : RedisState) (now : Nat) (k : String) (v : RBytes) (ttl : Nat) : RedisState :=
  (k, v, now + ttl) :: st

/-- The Redis branch of `get_cached_response(question)` (`app/utils.py`).
`fail = true` means the client operation raises; the handler logs and
returns `None`. Otherwise: fetch the prefixed key; a falsy result (missing
key or empty bytes) yields `None`; a truthy result is decoded, and a
decoding error is caught by the same handler, yielding `None`. -/
def getCachedResponseRedis (st : RedisState) (now : Nat) (fail : Bool)
    (question : String) : Option String :=
  if fail then
    none
  else
    match redisRawGet st now (mkKey question) with
    | some cached =>
      if cached.isTruthy then
        match cached.decodeUtf8 with
        | .ok s => some s
        | .error _ => none
      else none
    | none => none

/-- The Redis branch of `cache_response(question, answer)` (`app/utils.py`):
`setex` on the prefixed key with TTL 86400; a raising client operation is
caught and logged, leaving the store unchanged. -/
def cacheResponseRedis (st : RedisState) (now : Nat) (fail : Bool)
    (question answer : String) : RedisState :=
  if fail then st
  else redisSetex st now (mkKey question) (RBytes.utf8 answer) redisTTL

/-! ### Backend selection and the combined cache -/

/-- Outcome of `import redis` at module import time. -/
inductive ImportOutcome where
  | ok
  | importError
deriving DecidableEq, Repr

/-- Outcome of constructing the client with `redis.from_url(REDIS_URL)`
at module import time (it can raise, e.g. `ValueError` on a malformed URL). -/
inductive ConstructOutcome where
  | ok
  | raises
deriving DecidableEq, Repr

/-- Module-import-time computation of the `USE_REDIS` flag
(`app/utils.py` lines 8–22). `useRedisEnv` is whether the `USE_REDIS`
environment variable is `"true"`. Inside the `if USE_REDIS:` block, the
`try` covers both the import and the client construction, but the `except`
clause catches only `ImportError`: an import failure flips the flag to
`False`, while any other exception propagates and module import fails
(`Except.error`). -/
def startupUseRedis (useRedisEnv : Bool) (imp : ImportOutcome)
    (con : ConstructOutcome) : Except Unit Bool :=
  if useRedisEnv then
    match imp with
    | .importError => .ok false
    | .ok =>
      match con with
      | .raises => .error ()
      | .ok => .ok true
  else
    .ok false

/-- The whole mutable cache state of the module: the backend flag fixed at
start-up, the `lru_cache` wrapper's store, and the external store. -/
structure CacheState where
  useRedis : Bool
  lru : LruState
  redis : RedisState

/-- `get_cached_response(question)` (`app/utils.py`): dispatch on
`USE_REDIS`. In the in-process branch the call to `_lru_cache_get` also
updates the wrapper's recency state, so the updated state is returned. -/
def getCachedResponse (cs : CacheState) (now : Nat) (fail : Bool)
    (question : String) : Option String × CacheState :=
  if cs.useRedis then
    (getCachedResponseRedis cs.redis now fail question, cs)
  else
    let r := lruCall cs.lru question
    (r.1, { cs with lru := r.2 })

/-- `cache_response(question, answer)` (`app/utils.py`): dispatch on
`USE_REDIS`. -/
def cacheResponse (cs : CacheState) (now : Nat) (fail : Bool)
    (question answer : String) : CacheState :=
  if cs.useRedis then
    { cs with redis := cacheResponseRedis cs.redis now fail question answer }
  else
    { cs with lru := cacheResponseLocal cs.lru question answer }

/-! ### Call traces -/

/-- One cache call: a `get_cached_response` or a `cache_response`, with the
abstract time at which it runs and whether the external client operation
raises during it (irrelevant for the in-process backend). -/
inductive CacheOp where
  | get (question : String) (now : Nat) (fail : Bool)
  | set (question answer : String) (now : Nat) (fail : Bool)
deriving DecidableEq, Repr

/-- State transition of one cache call. -/
def stepCache (cs : CacheState) : CacheOp → CacheState
  | .get q now fail => (getCachedResponse cs now fail q).2
  | .set q a now fail => cacheResponse cs now fail q a

/-- The state at process start: chosen backend, empty `lru_cache` store,
empty external store. -/
def initState (useRedis : Bool) : CacheState :=
  { useRedis := useRedis, lru := [], redis := [] }

/-- The cache state after an interleaved sequence of calls, starting from
the initial state. -/
def runOps (useRedis : Bool) (ops : List CacheOp) : CacheState :=
  ops.foldl stepCache (initState useRedis)

/-! ### The `/ask` handler (`app/main.py`) -/

/-- Python truthiness of an `Optional[str]`: `None` and the empty string
are falsy. This is the test `if cached_response:` in `ask_question`. -/
def optStrTruthy : Option String → Bool
  | some s => !(s == "")
  | none => false

/-- Result of one `/ask` request: the answer returned to the client,
whether the language model was invoked, and the cache state afterwards. -/
structure AskOutcome where
  answer : String
  invokedModel : Bool
  state : CacheState

/-- The cache-relevant path of `ask_question` (`app/main.py` lines
185–199): consult the cache; a truthy cached response is returned directly;
otherwise the model is invoked (here returning `modelAnswer`), its answer
is cached, and that answer is returned. -/
def askQuestion (cs : CacheState) (now : Nat) (fail : Bool)
    (question modelAnswer : String) : AskOutcome :=
  let r := getCachedResponse cs now fail question
  if optStrTruthy r.1 then
    { answer := r.1.getD "", invokedModel := false, state := r.2 }
  else
    { answer := modelAnswer, invokedModel := true,
      state := cacheResponse r.2 now fail question modelAnswer }

/-! ### Helper lemmas -/

theorem lookup_mem {β : Type} {l : List (String × β)} {k : String} {v : β}
    (h : l.lookup k = some v) : (k, v) ∈ l := by
  induction l with
  | nil => simp [List.lookup] at h
  | cons hd tl ih =>
    obtain ⟨k2, v2⟩ := hd
    rw [List.lookup] at h
    split at h
    · next heq =>
      cases h
      have hk : k = k2 := beq_iff_eq.mp heq
      subst hk
      exact List.mem_cons_self _ _
    · exact List.mem_cons_of_mem _ (ih h)

theorem mkKey_inj {q1 q2 : String} (h : mkKey q1 = mkKey q2) : q1 = q2 := by
  unfold mkKey at h
  have h2 : ("culturebot:qa:" ++ q1).data = ("culturebot:qa:" ++ q2).data := by rw [h]
  rw [String.data_append, String.data_append] at h2
  exact String.ext (List.append_cancel_left h2)

theorem lruCall_of_lookup_some {s : LruState} {q : String} {v : Option String}
    (hl : s.lookup q = some v) :
    lruCall s q = (v, (q, v) :: s.eraseP (fun p => p.1 == q)) := by
  unfold lruCall
  rw [hl]

theorem lruCall_of_lookup_none {s : LruState} {q : String}
    (hl : s.lookup q = none) :
    lruCall s q = (none, ((q, none) :: s).take lruMaxsize) := by
  unfold lruCall
  rw [hl]
  rfl

/-- Invariant of the in-process backend: every value held by the
`lru_cache` wrapper is `None`, because the only function whose results it
memoizes always returns `None`. -/
def lruAllNone (s : LruState) : Prop := ∀ p ∈ s, p.2 = none

theorem lruAllNone_nil : lruAllNone [] := by
  intro p hp
  cases hp

theorem lruCall_fst {s : LruState} (h : lruAllNone s) (q : String) :
    (lruCall s q).1 = none := by
  cases hl : s.lookup q with
  | none => rw [lruCall_of_lookup_none hl]
  | some v =>
    rw [lruCall_of_lookup_some hl]
    exact h _ (lookup_mem hl)

theorem lruCall_snd {s : LruState} (h : lruAllNone s) (q : String) :
    lruAllNone (lruCall s q).2 := by
  cases hl : s.lookup q with
  | none =>
    rw [lruCall_of_lookup_none hl]
    intro p hp
    rcases List.mem_cons.mp (List.mem_of_mem_take hp) with h1 | h2
    · rw [h1]
    · exact h _ h2
  | some v =>
    rw [lruCall_of_lookup_some hl]
    intro p hp
    rcases List.mem_cons.mp hp with h1 | h2
    · rw [h1]
      exact h _ (lookup_mem hl)
    · exact h _ (List.mem_of_mem_eraseP h2)

theorem cacheResponseLocal_eq (s : LruState) (q a : String) :
    cacheResponseLocal s q a = [] := rfl

theorem stepCache_useRedis (cs : CacheState) (op : CacheOp) :
    (stepCache cs op).useRedis = cs.useRedis := by
  cases op with
  | get q now fail =>
    show ((getCachedResponse cs now fail q).2).useRedis = cs.useRedis
    unfold getCachedResponse
    split <;> rfl
  | set q a now fail =>
    show (cacheResponse cs now fail q a).useRedis = cs.useRedis
    unfold cacheResponse
    split <;> rfl

theorem stepCache_lru (cs : CacheState) (op : CacheOp) (h : lruAllNone cs.lru) :
    lruAllNone (stepCache cs op).lru := by
  cases op with
  | get q now fail =>
    show lruAllNone ((getCachedResponse cs now fail q).2).lru
    unfold getCachedResponse
    split
    · exact h
    · exact lruCall_snd h q
  | set q a now fail =>
    show lruAllNone (cacheResponse cs now fail q a).lru
    unfold cacheResponse
    split
    · exact h
    · rw [show ({ cs with lru := cacheResponseLocal cs.lru q a } : CacheState).lru =
          cacheResponseLocal cs.lru q a from rfl, cacheResponseLocal_eq]
      exact lruAllNone_nil

theorem foldl_useRedis (ops : List CacheOp) (cs : CacheState) :
    (ops.foldl stepCache cs).useRedis = cs.useRedis := by
  induction ops generalizing cs with
  | nil => rfl
  | cons op tl ih => rw [List.foldl_cons, ih, stepCache_useRedis]

theorem foldl_lru (ops : List CacheOp) (cs : CacheState) (h : lruAllNone cs.lru) :
    lruAllNone ((ops.foldl stepCache cs).lru) := by
  induction ops generalizing cs with
  | nil => exact h
  | cons op tl ih =>
    rw [List.foldl_cons]
    exact ih _ (stepCache_lru cs op h)

theorem runOps_useRedis (u : Bool) (ops : List CacheOp) :
    (runOps u ops).useRedis = u :=
  foldl_useRedis ops (initState u)

theorem runOps_lru (u : Bool) (ops : List CacheOp) :
    lruAllNone (runOps u ops).lru :=
  foldl_lru ops (initState u) lruAllNone_nil

theorem getCachedResponse_fst_of_local {cs : CacheState} (h : cs.useRedis = false)
    (now : Nat) (fail : Bool) (q : String) :
    (getCachedResponse cs now fail q).1 = (lruCall cs.lru q).1 := by
  simp [getCachedResponse, h]

theorem getCachedResponse_fst_of_redis {cs : CacheState} (h : cs.useRedis = true)
    (now : Nat) (fail : Bool) (q : String) :
    (getCachedResponse cs now fail q).1 = getCachedResponseRedis cs.redis now fail q := by
  simp [getCachedResponse, h]

theorem redisRawGet_some {st : RedisState} {now : Nat} {k : String} {b : RBytes}
    (h : redisRawGet st now k = some b) : ∃ e, (k, b, e) ∈ st ∧ now < e := by
  unfold redisRawGet at h
  cases hl : st.lookup k with
  | none => rw [hl] at h; cases h
  | some p =>
    obtain ⟨v, e⟩ := p
    rw [hl] at h
    simp only at h
    split at h
    · next hlt =>
      cases h
      exact ⟨e, lookup_mem hl, hlt⟩
    · cases h

theorem getRedis_some {st : RedisState} {now : Nat} {fail : Bool} {q v : String}
    (h : getCachedResponseRedis st now fail q = some v) :
    ∃ e, (mkKey q, RBytes.utf8 v, e) ∈ st := by
  unfold getCachedResponseRedis at h
  split at h
  · cases h
  · cases hr : redisRawGet st now (mkKey q) with
    | none => rw [hr] at h; cases h
    | some cached =>
      rw [hr] at h
      cases cached with
      | garbage => simp [RBytes.isTruthy, RBytes.decodeUtf8] at h
      | utf8 s =>
        by_cases hs : s = ""
        · rw [hs] at h
          simp [RBytes.isTruthy] at h
        · have hb : (s == "") = false := beq_eq_false_iff_ne.mpr hs
          simp [RBytes.isTruthy, RBytes.decodeUtf8, hb] at h
          obtain ⟨e, hmem, _⟩ := redisRawGet_some hr
          rw [h] at hmem
          exact ⟨e, hmem⟩

theorem stepCache_redis_mem {cs : CacheState} {op : CacheOp}
    {x : String × RBytes × Nat} (hx : x ∈ (stepCache cs op).redis) :
    x ∈ cs.redis ∨ ∃ q a tset, op = CacheOp.set q a tset false ∧
      x = (mkKey q, RBytes.utf8 a, tset + redisTTL) := by
  cases op with
  | get q now fail =>
    left
    have he : (stepCache cs (CacheOp.get q now fail)).redis = cs.redis := by
      show ((getCachedResponse cs now fail q).2).redis = cs.redis
      unfold getCachedResponse
      split <;> rfl
    rwa [he] at hx
  | set q a now fail =>
    cases fail with
    | true =>
      left
      have he : (stepCache cs (CacheOp.set q a now true)).redis = cs.redis := by
        show (cacheResponse cs now true q a).redis = cs.redis
        unfold cacheResponse cacheResponseRedis
        split <;> rfl
      rwa [he] at hx
    | false =>
      have he : (stepCache cs (CacheOp.set q a now false)).redis = cs.redis ∨
          (stepCache cs (CacheOp.set q a now false)).redis =
            (mkKey q, RBytes.utf8 a, now + redisTTL) :: cs.redis := by
        show (cacheResponse cs now false q a).redis = _ ∨ (cacheResponse cs now false q a).redis = _
        unfold cacheResponse cacheResponseRedis redisSetex
        split
        · right; rfl
        · left; rfl
      rcases he with h1 | h1
      · left
        rwa [h1] at hx
      · rw [h1] at hx
        rcases List.mem_cons.mp hx with h2 | h2
        · right
          exact ⟨q, a, now, rfl, h2⟩
        · left
          exact h2

theorem foldl_redis_mem {ops : List CacheOp} {cs : CacheState}
    {x : String × RBytes × Nat} (hx : x ∈ (ops.foldl stepCache cs).redis) :
    x ∈ cs.redis ∨ ∃ q a tset, CacheOp.set q a tset false ∈ ops ∧
      x = (mkKey q, RBytes.utf8 a, tset + redisTTL) := by
  induction ops generalizing cs with
  | nil => exact Or.inl hx
  | cons op tl ih =>
    rw [List.foldl_cons] at hx
    rcases ih hx with h1 | ⟨q, a, tset, hmem, hxe⟩
    · rcases stepCache_redis_mem h1 with h2 | ⟨q, a, tset, hop, hxe⟩
      · exact Or.inl h2
      · refine Or.inr ⟨q, a, tset, ?_, hxe⟩
        rw [hop]
        exact List.mem_cons_self _ _
    · exact Or.inr ⟨q, a, tset, List.mem_cons_of_mem _ hmem, hxe⟩

/-! ### Claim theorems -/

/-- C1 (code bug, evaluation at the failing input): under the in-process
backend, `get_cached_response("q")` on a fresh cache returns `None` (the
miss half of the claim), but after `cache_response("q", "a")` a further
`get_cached_response("q")` still returns `None` instead of `"a"`: the
in-process write path stores nothing, so the hit half of the claim fails. -/
theorem C1_code_bug_eval :
    (getCachedResponse (runOps false []) 0 false "q").1 = none ∧
    (getCachedResponse
      (runOps false [CacheOp.get "q" 0 false, CacheOp.set "q" "a" 1 false])
      2 false "q").1 = none := by
  decide

set_option maxRecDepth 10000 in
/-- C2 (code bug, evaluation at the failing input): inserting 101 distinct
keys `"0"`, …, `"100"` via `cache_response` into the in-process backend
(capacity 100) leaves every one of the 101 keys absent — `get` returns
`None` for each — instead of exactly the least-recently-used key being
absent with the other 100 present and retrievable. -/
theorem C2_code_bug_eval :
    (((List.range 101).map (fun i => toString i)).all
      (fun k => ((getCachedResponse
        (runOps false ((List.range 101).map
          (fun i => CacheOp.set (toString i) "v" i false)))
        101 false k).1 == none))) = true := by
  decide

/-- C3 (confirmed): under the in-process backend, after every interleaved
sequence of `cache_response` and `get_cached_response` calls,
`get_cached_response(Q)` returns `None` for every question `Q`:
`cache_response` clears the whole `lru_cache` and then writes to a
`cache_dict` attribute the wrapper does not have, so no stored answer is
ever observable through `get`. -/
theorem C3_local_get_always_none (ops : List CacheOp) (now : Nat)
    (fail : Bool) (q : String) :
    (getCachedResponse (runOps false ops) now fail q).1 = none := by
  rw [getCachedResponse_fst_of_local (runOps_useRedis false ops) now fail q]
  exact lruCall_fst (runOps_lru false ops) q

/-- C4 (confirmed, graceful degradation): if the external client operation
raises (connection error, timeout), `get_cached_response` returns `None`
and `cache_response` leaves the store untouched; and a stored value that
cannot be decoded as UTF-8 also makes `get_cached_response` return `None`.
All three modelled functions are total, so no exception propagates to the
caller. -/
theorem C4_graceful_degradation :
    (∀ (st : RedisState) (now : Nat) (q : String),
        getCachedResponseRedis st now true q = none) ∧
    (∀ (st : RedisState) (now : Nat) (q a : String),
        cacheResponseRedis st now true q a = st) ∧
    (∀ (rest : RedisState) (e now : Nat) (q : String),
        getCachedResponseRedis ((mkKey q, RBytes.garbage, e) :: rest) now false q
          = none) := by
  refine ⟨fun st now q => rfl, fun st now q a => rfl, fun rest e now q => ?_⟩
  unfold getCachedResponseRedis redisRawGet
  by_cases hne : now < e
  · simp [List.lookup, hne, RBytes.isTruthy, RBytes.decodeUtf8]
  · simp [List.lookup, hne]

/-- C5 (confirmed, no fabricated values): with either backend, for every
reachable cache state (any interleaved call trace from the initial state)
and every question `Q`, if `get_cached_response(Q)` returns a value `V`,
then some earlier successful `cache_response(Q, V)` occurs in the trace for
that exact key `Q`. -/
theorem C5_no_fabricated_values (useRedis : Bool) (ops : List CacheOp)
    (now : Nat) (fail : Bool) (q v : String)
    (h : (getCachedResponse (runOps useRedis ops) now fail q).1 = some v) :
    ∃ tset, CacheOp.set q v tset false ∈ ops := by
  cases useRedis with
  | false =>
    rw [getCachedResponse_fst_of_local (runOps_useRedis false ops) now fail q,
      lruCall_fst (runOps_lru false ops) q] at h
    cases h
  | true =>
    rw [getCachedResponse_fst_of_redis (runOps_useRedis true ops) now fail q] at h
    obtain ⟨e, hmem⟩ := getRedis_some h
    unfold runOps at hmem
    rcases foldl_redis_mem hmem with h1 | ⟨q2, a2, tset, hmem2, hxe⟩
    · simp [initState] at h1
    · simp only [Prod.mk.injEq] at hxe
      obtain ⟨hk, hv, _⟩ := hxe
      have hq : q = q2 := mkKey_inj hk
      have ha : v = a2 := by
        cases hv
        rfl
      refine ⟨tset, ?_⟩
      rw [hq, ha]
      exact hmem2

/-- Witness for C5: a concrete successful set followed by a hit. -/
theorem C5_witness :
    ∃ tset, CacheOp.set "q" "a" tset false ∈ [CacheOp.set "q" "a" 0 false] :=
  C5_no_fabricated_values true [CacheOp.set "q" "a" 0 false] 1 false "q" "a"
    (by decide)

/-- C6 counterexample: when the external backend is selected, the client
library imports fine, but constructing the client raises (for example
`redis.from_url` raising `ValueError` on a malformed `REDIS_URL`), loading
the module propagates the exception: startup fails instead of falling back. -/
theorem C6_counterexample :
    startupUseRedis true ImportOutcome.ok ConstructOutcome.raises
      = Except.error () := rfl

/-- C6 amended: when the external backend is selected but the client
library cannot be imported, startup does not fail — `USE_REDIS` becomes
false and all subsequent get/set calls use the in-process backend. A
failure while constructing the client, however, is not an `ImportError`
and is not caught, so it fails startup. -/
theorem C6_amended :
    (∀ con : ConstructOutcome,
        startupUseRedis true ImportOutcome.importError con = Except.ok false) ∧
    (∀ (l : LruState) (r : RedisState) (now : Nat) (fail : Bool) (q a : String),
        (getCachedResponse ⟨false, l, r⟩ now fail q).1 = (lruCall l q).1 ∧
        (getCachedResponse ⟨false, l, r⟩ now fail q).2.lru = (lruCall l q).2 ∧
        (cacheResponse ⟨false, l, r⟩ now fail q a).lru = cacheResponseLocal l q a ∧
        (cacheResponse ⟨false, l, r⟩ now fail q a).redis = r) :=
  ⟨fun _ => rfl, fun _ _ _ _ _ _ => ⟨rfl, rfl, rfl, rfl⟩⟩

/-- C7 (confirmed, external write shape): a successful `cache_response`
writes exactly the entry with key `"culturebot:qa:" + Q` (the question
verbatim) and expiry `now + 86400`, leaving all other entries as they
were; `get_cached_response` depends only on what the store holds under
that same prefixed key; and the prefixed key determines the question. -/
theorem C7_write_shape :
    (∀ (st : RedisState) (now : Nat) (q a : String),
        cacheResponseRedis st now false q a =
          ("culturebot:qa:" ++ q, RBytes.utf8 a, now + 86400) :: st) ∧
    (∀ (st1 st2 : RedisState) (now : Nat) (fail : Bool) (q : String),
        st1.lookup ("culturebot:qa:" ++ q) = st2.lookup ("culturebot:qa:" ++ q) →
        getCachedResponseRedis st1 now fail q
          = getCachedResponseRedis st2 now fail q) ∧
    (∀ q1 q2 : String, mkKey q1 = mkKey q2 → q1 = q2) := by
  refine ⟨fun st now q a => rfl, fun st1 st2 now fail q h => ?_,
    fun q1 q2 h => mkKey_inj h⟩
  have h2 : st1.lookup (mkKey q) = st2.lookup (mkKey q) := h
  unfold getCachedResponseRedis redisRawGet
  rw [h2]

/-- Witness for C7: the read of a question is unaffected by an entry under
an unrelated key. -/
theorem C7_witness :
    getCachedResponseRedis [] 0 false "q" =
      getCachedResponseRedis [("other", RBytes.utf8 "x", 5)] 0 false "q" :=
  C7_write_shape.2.1 [] [("other", RBytes.utf8 "x", 5)] 0 false "q" (by decide)

/-- C8 counterexample: the entry written by `cache_response("q", "")` at
time 0 carries TTL 86400, yet `get_cached_response("q")` at time 1 — well
strictly before the TTL has elapsed — returns `None`, not the stored empty
answer: the truthiness test on the fetched empty bytes fails. -/
theorem C8_counterexample :
    1 < 0 + redisTTL ∧
    getCachedResponseRedis (cacheResponseRedis [] 0 false "q" "") 1 false "q"
      = none := by
  decide

/-- C8 amended (TTL expiry for non-empty answers): under the external
backend, an entry written by a successful `cache_response(Q, A)` with a
non-empty `A` at time `t` is returned by `get_cached_response(Q)` at any
time strictly before `t + 86400`, and is absent at any time from
`t + 86400` on. -/
theorem C8_ttl_expiry (st : RedisState) (tset now1 now2 : Nat) (q a : String)
    (ha : a ≠ "") (h1 : now1 < tset + redisTTL) (h2 : tset + redisTTL ≤ now2) :
    getCachedResponseRedis (cacheResponseRedis st tset false q a) now1 false q
      = some a ∧
    getCachedResponseRedis (cacheResponseRedis st tset false q a) now2 false q
      = none := by
  have hb : (a == "") = false := beq_eq_false_iff_ne.mpr ha
  constructor
  · unfold cacheResponseRedis redisSetex getCachedResponseRedis redisRawGet
    simp [List.lookup, h1, RBytes.isTruthy, RBytes.decodeUtf8, hb]
  · unfold cacheResponseRedis redisSetex getCachedResponseRedis redisRawGet
    simp [List.lookup, Nat.not_lt.mpr h2]

/-- Witness for C8: a concrete write at time 0 is a hit at time 0 and
absent at time 86400. -/
theorem C8_witness :
    getCachedResponseRedis (cacheResponseRedis [] 0 false "q" "a") 0 false "q"
      = some "a" ∧
    getCachedResponseRedis (cacheResponseRedis [] 0 false "q" "a") 86400 false "q"
      = none :=
  C8_ttl_expiry [] 0 0 86400 "q" "a" (by decide) (by decide) (by decide)

/-- C9 (confirmed, key exactness): no normalization is applied to question
keys. For distinct questions `Q1 ≠ Q2` (differing even only in case,
whitespace or punctuation): under the external backend a write for `Q1`
leaves the observable result of a read for `Q2` unchanged; and under the
in-process backend appending a set or a get for `Q1` to any call trace
leaves the observable result of a read for `Q2` unchanged. -/
theorem C9_key_exactness (q1 q2 a : String) (hne : q1 ≠ q2) :
    (∀ (st : RedisState) (tset now : Nat) (fail : Bool),
        getCachedResponseRedis (cacheResponseRedis st tset false q1 a) now fail q2
          = getCachedResponseRedis st now fail q2) ∧
    (∀ (ops : List CacheOp) (tset now : Nat) (fail : Bool),
        (getCachedResponse (runOps false (ops ++ [CacheOp.set q1 a tset fail]))
            now fail q2).1
          = (getCachedResponse (runOps false ops) now fail q2).1 ∧
        (getCachedResponse (runOps false (ops ++ [CacheOp.get q1 tset fail]))
            now fail q2).1
          = (getCachedResponse (runOps false ops) now fail q2).1) := by
  have hbeq : (mkKey q2 == mkKey q1) = false :=
    beq_eq_false_iff_ne.mpr fun he => hne (mkKey_inj he).symm
  refine ⟨fun st tset now fail => ?_, fun ops tset now fail => ⟨?_, ?_⟩⟩
  · unfold cacheResponseRedis redisSetex getCachedResponseRedis redisRawGet
    simp [List.lookup, hbeq]
  · rw [getCachedResponse_fst_of_local (runOps_useRedis false _) now fail q2,
      getCachedResponse_fst_of_local (runOps_useRedis false ops) now fail q2,
      lruCall_fst (runOps_lru false _) q2, lruCall_fst (runOps_lru false ops) q2]
  · rw [getCachedResponse_fst_of_local (runOps_useRedis false _) now fail q2,
      getCachedResponse_fst_of_local (runOps_useRedis false ops) now fail q2,
      lruCall_fst (runOps_lru false _) q2, lruCall_fst (runOps_lru false ops) q2]

/-- Witness for C9: `get("foo")` is unaffected by a write to `"Foo"`. -/
theorem C9_witness :
    getCachedResponseRedis (cacheResponseRedis [] 0 false "Foo" "a") 1 false "foo"
      = getCachedResponseRedis [] 1 false "foo" :=
  (C9_key_exactness "Foo" "foo" "a" (by decide)).1 [] 0 1 false

/-- C10 (confirmed): an empty string stored as the answer for a question
makes the external-backend `get_cached_response` return `None` (the
truthiness test on the fetched empty bytes fails), and the `/ask` handler
treats any empty or `None` cached response as a miss, invoking the model
and returning its answer instead of serving the cached value. -/
theorem C10_empty_answer_is_miss :
    (∀ (rest : RedisState) (e now : Nat) (q : String),
        getCachedResponseRedis ((mkKey q, RBytes.utf8 "", e) :: rest) now false q
          = none) ∧
    (∀ (cs : CacheState) (now : Nat) (fail : Bool) (q ma : String),
        ((getCachedResponse cs now fail q).1 = none ∨
          (getCachedResponse cs now fail q).1 = some "") →
        (askQuestion cs now fail q ma).invokedModel = true ∧
        (askQuestion cs now fail q ma).answer = ma) := by
  constructor
  · intro rest e now q
    unfold getCachedResponseRedis redisRawGet
    by_cases hne : now < e
    · simp [List.lookup, hne, RBytes.isTruthy]
    · simp [List.lookup, hne]
  · intro cs now fail q ma h
    have ht : optStrTruthy (getCachedResponse cs now fail q).1 = false := by
      rcases h with h | h <;> simp [h, optStrTruthy]
    simp [askQuestion, ht]

/-- Witness for C10: a miss on a fresh external-backend state makes the
handler invoke the model. -/
theorem C10_witness :
    (askQuestion (initState true) 0 false "q" "m").invokedModel = true ∧
    (askQuestion (initState true) 0 false "q" "m").answer = "m" :=
  C10_empty_answer_is_miss.2 (initState true) 0 false "q" "m" (Or.inl (by decide))

end CultureBot
